import Mathlib

/-
Verification of the batch resume evaluation pipeline (src/app.py) against its
natural-language specification.  Pure logic from the source is embedded as
executableEan definitions; IO-bound collaborators (file extraction, the HTTP
call to the model endpoint, the CSV sink, wall-clock time) are passed in as
explicit function arguments or opaque parameters, exactly as the spec treats
them (external collaborators).
-/

namespace HRSBot

/-- The opening curly brace character (written via its code point so that it
can be used in strings and comparisons without brace-escaping issues). -/
def lbrace : Char := Char.ofNat 123

/-- The closing curly brace character. -/
def rbrace : Char := Char.ofNat 125

/-- The single-quote character as a one-character string. -/
def squote : String := String.mk [Char.ofNat 39]

/-- JSON values as produced by Python's json.loads on the model response.
Numbers are restricted to integers: the schema the prompt demands (and every
response this pipeline handles in the claims) uses integer scores. -/
inductive Json where
  | null : Json
  | bool : Bool → Json
  | num : Int → Json
  | str : String → Json
  | arr : List Json → Json
  | obj : List (String × Json) → Json

/-- Python dict lookup on the association-list representation of a JSON
object.  Keys are unique by construction (see insertKey), so returning the
first match is faithful. -/
def lookupKey : List (String × Json) → String → Option Json
  | [], _ => none
  | (k2, v) :: rest, k => if k2 = k then some v else lookupKey rest k

/-- Python dict insertion: an existing key keeps its position and gets the new
value; a fresh key is appended at the end.  Used both by the JSON parser (for
duplicate keys, mirroring json.loads) and by the mutating assignment
parsed["score_breakdown"] = sb. -/
def insertKey : List (String × Json) → String → Json → List (String × Json)
  | [], k, v => [(k, v)]
  | (k2, v2) :: rest, k, v =>
    if k2 = k then (k2, v) :: rest else (k2, v2) :: insertKey rest k v

/-- JSON whitespace characters. -/
def isWsChar (c : Char) : Bool :=
  c = ' ' || c = '\t' || c = '\n' || c = '\r'

/-- Drop leading JSON whitespace. -/
def skipWs : List Char → List Char
  | [] => []
  | c :: cs => if isWsChar c then skipWs cs else c :: cs

/-- Parse the body of a JSON string literal (after the opening quote) up to
the closing quote, handling the single-character escapes.  Unicode escapes
are not needed by any input of this development.  Fuel bounds recursion. -/
def parseStringLit : Nat → List Char → Option (String × List Char)
  | 0, _ => none
  | _, [] => none
  | Nat.succ fuel, c :: cs =>
    if c = '"' then some ("", cs)
    else if c = '\\' then
      match cs with
      | [] => none
      | e :: cs2 =>
        let esc : Option Char :=
          if e = '"' then some '"'
          else if e = '\\' then some '\\'
          else if e = '/' then some '/'
          else if e = 'n' then some '\n'
          else if e = 't' then some '\t'
          else if e = 'r' then some '\r'
          else if e = 'b' then some (Char.ofNat 8)
          else if e = 'f' then some (Char.ofNat 12)
          else none
        match esc with
        | none => none
        | some ch =>
          match parseStringLit fuel cs2 with
          | some (s, rest) => some (String.mk (ch :: s.data), rest)
          | none => none
    else
      match parseStringLit fuel cs with
      | some (s, rest) => some (String.mk (c :: s.data), rest)
      | none => none

/-- Split a leading run of decimal digits off a character list. -/
def takeDigits : List Char → List Char × List Char
  | [] => ([], [])
  | c :: cs =>
    if c.isDigit then
      let p := takeDigits cs
      (c :: p.1, p.2)
    else ([], c :: cs)

/-- Numeric value of a digit list. -/
def digitsToNat (ds : List Char) : Nat :=
  ds.foldl (fun acc c => acc * 10 + (c.toNat - 48)) 0

/-- Parse a JSON integer literal (optional minus sign, then digits).  A
fractional part or exponent makes the parse fail: the pipeline's schema is
integer-valued. -/
def parseNum : List Char → Option (Json × List Char)
  | [] => none
  | c :: cs =>
    if c = '-' then
      match takeDigits cs with
      | ([], _) => none
      | (ds, rest) =>
        if rest.head? = some '.' || rest.head? = some 'e' || rest.head? = some 'E' then none
        else some (Json.num (-(digitsToNat ds : Int)), rest)
    else
      match takeDigits (c :: cs) with
      | ([], _) => none
      | (ds, rest) =>
        if rest.head? = some '.' || rest.head? = some 'e' || rest.head? = some 'E' then none
        else some (Json.num (digitsToNat ds : Int), rest)

mutual

/-- Recursive-descent JSON value parser (model of json.loads), fuel-bounded. -/
def parseVal : Nat → List Char → Option (Json × List Char)
  | 0, _ => none
  | Nat.succ fuel, input =>
    match skipWs input with
    | [] => none
    | c :: cs =>
      if c = lbrace then parseObjBody fuel cs
      else if c = '[' then parseArrBody fuel cs
      else if c = '"' then
        match parseStringLit (cs.length + 1) cs with
        | some (s, rest) => some (Json.str s, rest)
        | none => none
      else if c = 't' then
        match cs with
        | 'r' :: 'u' :: 'e' :: rest => some (Json.bool true, rest)
        | _ => none
      else if c = 'f' then
        match cs with
        | 'a' :: 'l' :: 's' :: 'e' :: rest => some (Json.bool false, rest)
        | _ => none
      else if c = 'n' then
        match cs with
        | 'u' :: 'l' :: 'l' :: rest => some (Json.null, rest)
        | _ => none
      else parseNum (c :: cs)

/-- Parse what follows the opening brace of a JSON object. -/
def parseObjBody : Nat → List Char → Option (Json × List Char)
  | 0, _ => none
  | Nat.succ fuel, input =>
    match skipWs input with
    | [] => none
    | c :: cs =>
      if c = rbrace then some (Json.obj [], cs)
      else parseMembers fuel (c :: cs) []

/-- Parse the members of a non-empty JSON object. -/
def parseMembers : Nat → List Char → List (String × Json) → Option (Json × List Char)
  | 0, _, _ => none
  | Nat.succ fuel, input, acc =>
    match skipWs input with
    | [] => none
    | c :: cs =>
      if c = '"' then
        match parseStringLit (cs.length + 1) cs with
        | none => none
        | some (key, rest1) =>
          match skipWs rest1 with
          | ':' :: rest2 =>
            match parseVal fuel rest2 with
            | none => none
            | some (v, rest3) =>
              let acc2 := insertKey acc key v
              match skipWs rest3 with
              | ',' :: rest4 => parseMembers fuel rest4 acc2
              | d :: rest4 =>
                if d = rbrace then some (Json.obj acc2, rest4) else none
              | [] => none
          | _ => none
      else none

/-- Parse what follows the opening bracket of a JSON array. -/
def parseArrBody : Nat → List Char → Option (Json × List Char)
  | 0, _ => none
  | Nat.succ fuel, input =>
    match skipWs input with
    | [] => none
    | c :: cs =>
      if c = ']' then some (Json.arr [], cs)
      else parseElems fuel (c :: cs) []

/-- Parse the elements of a non-empty JSON array (accumulated in order). -/
def parseElems : Nat → List Char → List Json → Option (Json × List Char)
  | 0, _, _ => none
  | Nat.succ fuel, input, acc =>
    match parseVal fuel input with
    | none => none
    | some (v, rest1) =>
      match skipWs rest1 with
      | ',' :: rest2 => parseElems fuel rest2 (acc ++ [v])
      | ']' :: rest2 => some (Json.arr (acc ++ [v]), rest2)
      | _ => none

end

/-- Model of json.loads: parse one JSON value and require that only
whitespace remains (json.loads rejects trailing data). -/
def jsonParse (s : String) : Option Json :=
  match parseVal (s.data.length + 2) s.data with
  | none => none
  | some (v, rest) => if skipWs rest = [] then some v else none

/-- Model of re.search("\\x7b.*\\x7d", text, re.DOTALL): the greedy match runs
from the first opening brace to the last closing brace, and exists exactly
when some opening brace is followed (strictly later) by a closing brace. -/
def braceSpan (text : String) : Option String :=
  let cs := text.data
  match cs.findIdx? (fun c => c = lbrace), (cs.reverse.findIdx? (fun c => c = rbrace)) with
  | some i, some jr =>
    let j := cs.length - 1 - jr
    if i < j then some (String.mk ((cs.drop i).take (j - i + 1))) else none
  | _, _ => none

/-- Python slice text[:n]. -/
def pyTake (text : String) (n : Nat) : String :=
  String.mk (text.data.take n)

/-- The message of the ValueError raised by parse_json_response: a fixed
header followed by the first 500 characters of the raw model text. -/
def unparsableMsg (text : String) : String :=
  "❌ Could not parse JSON from Gemini:\n" ++ pyTake text 500 ++ "..."

/-- The four score_breakdown field names, in the order the source iterates. -/
def breakdownFields : List String := ["experience", "skills", "education", "industry"]

/-- Python dict.setdefault(k, 0): append (k, 0) at the end when k is absent. -/
def setDefaultZero (kvs : List (String × Json)) (k : String) : List (String × Json) :=
  if (lookupKey kvs k).isSome then kvs else kvs ++ [(k, Json.num 0)]

/-- The setdefault loop of parse_json_response over the four breakdown
fields. -/
def completeBreakdown (sb : List (String × Json)) : List (String × Json) :=
  breakdownFields.foldl setDefaultZero sb

/-- Model of parse_json_response (src/app.py lines 136-146).  The brace span
is extracted and parsed; score_breakdown is fetched with default then
completed with setdefault and written back.  Any failure inside the try block
(no regex match, json.loads failure, or setdefault on a non-dict
score_breakdown value) becomes the single ValueError with the truncated raw
text. -/
def parse_json_response (text : String) : Except String Json :=
  match braceSpan text with
  | none => Except.error (unparsableMsg text)
  | some json_str =>
    match jsonParse json_str with
    | none => Except.error (unparsableMsg text)
    | some (Json.obj kvs) =>
      match lookupKey kvs "score_breakdown" with
      | none =>
        Except.ok (Json.obj (insertKey kvs "score_breakdown" (Json.obj (completeBreakdown []))))
      | some (Json.obj sb) =>
        Except.ok (Json.obj (insertKey kvs "score_breakdown" (Json.obj (completeBreakdown sb))))
      | some _ => Except.error (unparsableMsg text)
    | some _ => Except.error (unparsableMsg text)

/-- Top-level field lookup on a parse result, for stating observations. -/
def topField (r : Except String Json) (k : String) : Option Json :=
  match r with
  | Except.ok (Json.obj kvs) => lookupKey kvs k
  | _ => none

/-- Breakdown field lookup on a parse result. -/
def breakdownField (r : Except String Json) (k : String) : Option Json :=
  match topField r "score_breakdown" with
  | some (Json.obj sb) => lookupKey sb k
  | _ => none

/-- The four scoring weights (the weights dict built in main; the UI widgets
bound each to an integer in [0, 100]). -/
structure Weights where
  experience : Int
  skills : Int
  education : Int
  industry : Int

/-- The tone_instruction dict lookup with its default (src/app.py lines 62-66
and 103): tone_instruction.get(remark_tone, "Use a professional tone."). -/
def toneInstruction (remark_tone : String) : String :=
  if remark_tone = "Professional" then "Use a neutral and formal tone."
  else if remark_tone = "Critical" then "Be sharply evaluative, pointing out weaknesses clearly."
  else if remark_tone = "Blunt" then "Give a direct, no-nonsense assessment without sugarcoating."
  else "Use a professional tone."

/-- Template text before the experience weight. -/
def promptSegA : String :=
  "\nYou are acting as a professional HR Manager at JSW Paints.\n\nEvaluate the following resume against the job description.\n\nScoring Logic:\n1. Experience Match - "

/-- Template text between the experience and skills weights. -/
def promptSegB : String := "%\n2. Skill Match - "

/-- Template text between the skills and education weights. -/
def promptSegC : String := "%\n3. Education Quality - "

/-- Template text between the education and industry weights. -/
def promptSegD : String := "%\n4. Industry relevance - "

/-- Template text between the industry weight and the tone instruction (the
business rules and the demanded JSON schema; literal braces appear via their
escape codes). -/
def promptSegE : String :=
  "%\n\nOther Rules:\n- Deduct 10% if experience < 2 years.\n- Direct REJECTION if job-hopping <2 years occurred more than twice.\n- Score 0 if working in or ex-JSW, Dulux, Akzo Nobel, Birla Opus.\n- For evaluating colleges/universities use NIRF ranking.\n- DO NOT reject candidates for working in Asian Paints.\n\nReturn ONLY JSON in this format:\n\x7b\n  \"name\": \"Full name\",\n  \"score\": Final score out of 100,\n  \"score_breakdown\": \x7b\n      \"experience\": score_from_experience,\n      \"skills\": score_from_skills,\n      \"education\": score_from_education,\n      \"industry\": score_from_industry\n  \x7d,\n  \"education\": \"Degree and college\",\n  \"experience\": \"Total relevant years of experience in the given field in JD (e.g. paints/FMCG/chemicals), plus role-wise company breakdown\",\n  \"skills_matched\": [\"skill1\", \"skill2\"],\n  \"remark\": \"30-word summary on fitment and verdict about why they are either Accepted OR Rejected\"\n\x7d\n\nRemark Instructions:\n- "

/-- Template text between the tone instruction and the resume text. -/
def promptSegF : String := "\n\nResume:\n"

/-- Template text between the resume text and the job description. -/
def promptSegG : String := "\n\nJob Description:\n"

/-- Template text after the job description. -/
def promptSegH : String := "\n"

/-- Model of prepare_prompt (src/app.py lines 61-110): the f-string template
with the four weights, the selected tone instruction, the resume text and the
JD text interpolated.  A pure total function. -/
def prepare_prompt (resume_text jd_text : String) (weights : Weights) (remark_tone : String) : String :=
  promptSegA ++ toString weights.experience ++ promptSegB ++ toString weights.skills ++
    promptSegC ++ toString weights.education ++ promptSegD ++ toString weights.industry ++
    promptSegE ++ toneInstruction remark_tone ++ promptSegF ++ resume_text ++
    promptSegG ++ jd_text ++ promptSegH

mutual

/-- Python repr of a JSON value (used for elements of containers inside
f-strings; string escaping inside repr is simplified to plain quoting, which
is exact for the quote-free strings this pipeline produces). -/
def pyRepr : Json → String
  | Json.null => "None"
  | Json.bool true => "True"
  | Json.bool false => "False"
  | Json.num n => toString n
  | Json.str s => squote ++ s ++ squote
  | Json.arr xs => "[" ++ pyReprList xs ++ "]"
  | Json.obj kvs => String.mk [lbrace] ++ pyReprObj kvs ++ String.mk [rbrace]

/-- Comma-separated reprs of a list of JSON values. -/
def pyReprList : List Json → String
  | [] => ""
  | [x] => pyRepr x
  | x :: y :: rest => pyRepr x ++ ", " ++ pyReprList (y :: rest)

/-- Comma-separated reprs of the entries of a JSON object. -/
def pyReprObj : List (String × Json) → String
  | [] => ""
  | [(k, v)] => squote ++ k ++ squote ++ ": " ++ pyRepr v
  | (k, v) :: p :: rest => squote ++ k ++ squote ++ ": " ++ pyRepr v ++ ", " ++ pyReprObj (p :: rest)

end

/-- Python str() of a JSON value, as applied by f-string interpolation:
identical to repr except that a top-level string is unquoted. -/
def pyStr : Json → String
  | Json.str s => s
  | j => pyRepr j

/-- Python int(string): optional surrounding whitespace, an optional sign,
then at least one digit (digit-group underscores are not needed here). -/
def pyIntOfStr (s : String) : Option Int :=
  let t := ((s.data.dropWhile isWsChar).reverse.dropWhile isWsChar).reverse
  match t with
  | [] => none
  | c :: rest =>
    if c = '-' then
      if rest ≠ [] ∧ rest.all Char.isDigit then some (-(digitsToNat rest : Int)) else none
    else if c = '+' then
      if rest ≠ [] ∧ rest.all Char.isDigit then some (digitsToNat rest : Int) else none
    else if (c :: rest).all Char.isDigit then some (digitsToNat (c :: rest) : Int)
    else none

/-- Python int() coercion of the JSON values json.loads can produce:
integers pass through, booleans become 0/1, numeric strings are parsed, and
everything else raises TypeError/ValueError. -/
def pyInt : Json → Except String Int
  | Json.num n => Except.ok n
  | Json.bool b => Except.ok (if b then 1 else 0)
  | Json.str s =>
    match pyIntOfStr s with
    | some n => Except.ok n
    | none => Except.error ("invalid literal for int() with base 10: " ++ squote ++ s ++ squote)
  | Json.null => Except.error ("int() argument must be a string, a bytes-like object or a real number, not " ++ squote ++ "NoneType" ++ squote)
  | Json.arr _ => Except.error ("int() argument must be a string, a bytes-like object or a real number, not " ++ squote ++ "list" ++ squote)
  | Json.obj _ => Except.error ("int() argument must be a string, a bytes-like object or a real number, not " ++ squote ++ "dict" ++ squote)

/-- Extract a list of Lean strings from a JSON array whose elements are all
strings. -/
def asStrList : List Json → Option (List String)
  | [] => some []
  | Json.str s :: rest => (asStrList rest).map (fun l => s :: l)
  | _ => none

/-- Python ", ".join(x) on the JSON values json.loads can produce: joins a
list of strings; a string joins its characters; a dict joins its keys; a
list with a non-string element, or a non-iterable, raises TypeError. -/
def pyJoin (sep : String) : Json → Except String String
  | Json.arr xs =>
    match asStrList xs with
    | some l => Except.ok (String.intercalate sep l)
    | none => Except.error "sequence item: expected str instance"
  | Json.str s => Except.ok (String.intercalate sep (s.data.map (fun c => String.mk [c])))
  | Json.obj kvs => Except.ok (String.intercalate sep (kvs.map (fun p => p.1)))
  | _ => Except.error "can only join an iterable"

/-- Python dict get with default on a JSON object's entries. -/
def getJ (kvs : List (String × Json)) (k : String) (d : Json) : Json :=
  (lookupKey kvs k).getD d

/-- One row of st.session_state.results (the dict appended at src/app.py
lines 222-231).  Values that the source stores raw stay Json; values the
source formats into strings are strings. -/
structure Row where
  filename : String
  name : Json
  score : Int
  education : Json
  experience : Json
  skills_matched : String
  remark : Json
  score_breakdown : String

/-- The message of the AttributeError raised when .get is called on a
non-dict value. -/
def attrGetErr : String := "AttributeError: object has no attribute get"

/-- Model of the result-row construction (src/app.py lines 219-231): the
breakdown string is formatted first (line 220), then the dict literal is
evaluated left to right, so int() on the score raises before join() on
skills_matched can.  A raise anywhere surfaces as the error of the returned
Except, which main's try/except turns into a batch error. -/
def buildRow (filename : String) (parsed : Json) : Except String Row :=
  match parsed with
  | Json.obj kvs =>
    match getJ kvs "score_breakdown" (Json.obj []) with
    | Json.obj bkvs =>
      let breakdown_str :=
        "Exp: " ++ pyStr (getJ bkvs "experience" (Json.num 0)) ++
        ", Skills: " ++ pyStr (getJ bkvs "skills" (Json.num 0)) ++
        ", Edu: " ++ pyStr (getJ bkvs "education" (Json.num 0)) ++
        ", Ind: " ++ pyStr (getJ bkvs "industry" (Json.num 0))
      match pyInt (getJ kvs "score" (Json.num 0)) with
      | Except.error e => Except.error e
      | Except.ok score =>
        match pyJoin ", " (getJ kvs "skills_matched" (Json.arr [])) with
        | Except.error e => Except.error e
        | Except.ok skills_str =>
          Except.ok
            { filename := filename
              name := getJ kvs "name" (Json.str "N/A")
              score := score
              education := getJ kvs "education" (Json.str "N/A")
              experience := getJ kvs "experience" (Json.str "N/A")
              skills_matched := skills_str
              remark := getJ kvs "remark" (Json.str "N/A")
              score_breakdown := breakdown_str }
    | _ => Except.error attrGetErr
  | _ => Except.error attrGetErr

/-- An uploaded resume file: a name plus opaque content.  Extraction from
the content (PyMuPDF / python-docx) is an external collaborator and is passed
to the orchestrator as a function. -/
structure UploadedFile where
  name : String
  content : String
deriving DecidableEq

/-- The pipeline applied to a single resume file, as in the body of the try
block of main's loop (src/app.py lines 214-217 and 219-231): extract, build
the prompt, call the model, parse, build the row.  The first failure wins,
exactly as the first raised exception does. -/
def processOne (extract : UploadedFile → Except String String)
    (client : String → Except String String)
    (jd : String) (weights : Weights) (remark_tone : String)
    (file : UploadedFile) : Except String Row :=
  match extract file with
  | Except.error e => Except.error e
  | Except.ok resume_text =>
    match client (prepare_prompt resume_text jd weights remark_tone) with
    | Except.error e => Except.error e
    | Except.ok response_text =>
      match parse_json_response response_text with
      | Except.error e => Except.error e
      | Except.ok response_json => buildRow file.name response_json

/-- The mutable state of main's loop over uploaded files, plus call counters
for the external collaborators (used to state that rejected batches perform
no work). -/
structure BatchState where
  results : List Row
  error_messages : List String
  success_count : Nat
  failure_count : Nat
  extract_calls : Nat
  prompts_built : Nat
  client_calls : Nat

/-- The loop state before the first file. -/
def initState : BatchState :=
  { results := [], error_messages := [], success_count := 0, failure_count := 0,
    extract_calls := 0, prompts_built := 0, client_calls := 0 }

/-- The except branch of main's loop (src/app.py lines 234-238): one error
message tagged with the file name, one failure increment. -/
def recordFailure (st : BatchState) (fname msg : String) : BatchState :=
  { st with error_messages := st.error_messages ++ [fname ++ " ❌ " ++ msg],
            failure_count := st.failure_count + 1 }

/-- One iteration of main's loop (src/app.py lines 212-238): extraction is
attempted for every file; the prompt is built and the client called only when
extraction succeeded; the first failure of the chain is recorded and the
loop moves on. -/
def stepFile (extract : UploadedFile → Except String String)
    (client : String → Except String String)
    (jd : String) (weights : Weights) (remark_tone : String)
    (st : BatchState) (file : UploadedFile) : BatchState :=
  let st0 := { st with extract_calls := st.extract_calls + 1 }
  match extract file with
  | Except.error e => recordFailure st0 file.name e
  | Except.ok resume_text =>
    let st1 := { st0 with prompts_built := st0.prompts_built + 1,
                          client_calls := st0.client_calls + 1 }
    match client (prepare_prompt resume_text jd weights remark_tone) with
    | Except.error e => recordFailure st1 file.name e
    | Except.ok response_text =>
      match parse_json_response response_text with
      | Except.error e => recordFailure st1 file.name e
      | Except.ok response_json =>
        match buildRow file.name response_json with
        | Except.error e => recordFailure st1 file.name e
        | Except.ok row =>
          { st1 with results := st1.results ++ [row],
                     success_count := st1.success_count + 1 }

/-- Main's loop over the uploaded files in caller-supplied order. -/
def runBatch (extract : UploadedFile → Except String String)
    (client : String → Except String String)
    (jd : String) (weights : Weights) (remark_tone : String)
    (files : List UploadedFile) : BatchState :=
  files.foldl (stepFile extract client jd weights remark_tone) initState

/-- One row of the usage log (the dict handed to log_usage_summary at
src/app.py lines 242-252).  The timestamp is produced by the wall clock and
is outside the pure model; the duration is threaded in as an opaque value. -/
structure LogEntry where
  user_action : String
  number_of_resumes : Nat
  jd_length_words : Nat
  errors_occurred : Bool
  success_count : Nat
  failure_count : Nat
  duration_sec : Nat
  error_message : String

/-- Python jd.strip().split(): whitespace-separated words. -/
def pySplitWords (s : String) : List String :=
  (s.split (fun c => isWsChar c)).filter (fun w => w ≠ "")

/-- The RunSummary record computed after the loop (src/app.py lines 242-252):
counts, the errors_occurred flag, and the error messages joined with "; " or
the literal string "None" when no errors occurred. -/
def mkLogEntry (files : List UploadedFile) (jd : String) (duration : Nat)
    (st : BatchState) : LogEntry :=
  { user_action := "Resume Batch Analysis"
    number_of_resumes := files.length
    jd_length_words := (pySplitWords jd).length
    errors_occurred := decide (0 < st.failure_count)
    success_count := st.success_count
    failure_count := st.failure_count
    duration_sec := duration
    error_message := if st.error_messages.isEmpty then "None"
                     else String.intercalate "; " st.error_messages }

/-- Model of log_usage_summary (src/app.py lines 15-21): the sink is
append-only and each call appends exactly one row. -/
def log_usage_summary (log : List LogEntry) (log_entry : LogEntry) : List LogEntry :=
  log ++ [log_entry]

/-- The observable outcome of one press of the Analyze button. -/
structure MainOutcome where
  guard_error : Option String
  results : List Row
  error_messages : List String
  extract_calls : Nat
  prompts_built : Nat
  client_calls : Nat
  log : List LogEntry

/-- Model of the analyze path of main (src/app.py lines 181-252): the
weights-sum guard returns before any file is touched; the missing-JD/files
guard likewise; otherwise the batch runs and exactly one summary row is
appended to the log sink. -/
def main (experience_weight skills_weight education_weight industry_weight : Int)
    (jd : String) (remark_tone : String) (files : List UploadedFile)
    (extract : UploadedFile → Except String String)
    (client : String → Except String String)
    (duration : Nat) (log0 : List LogEntry) : MainOutcome :=
  let total := experience_weight + skills_weight + education_weight + industry_weight
  if total ≠ 100 then
    { guard_error := some ("Total is " ++ toString total ++ "%. Adjust to equal 100.")
      results := [], error_messages := []
      extract_calls := 0, prompts_built := 0, client_calls := 0, log := log0 }
  else
    let weights : Weights :=
      { experience := experience_weight, skills := skills_weight,
        education := education_weight, industry := industry_weight }
    if jd = "" ∨ files = [] then
      { guard_error := some "Please provide both Job Description and Resumes."
        results := [], error_messages := []
        extract_calls := 0, prompts_built := 0, client_calls := 0, log := log0 }
    else
      let st := runBatch extract client jd weights remark_tone files
      { guard_error := none
        results := st.results
        error_messages := st.error_messages
        extract_calls := st.extract_calls
        prompts_built := st.prompts_built
        client_calls := st.client_calls
        log := log_usage_summary log0 (mkLogEntry files jd duration st) }

/-- Insertion into a descending-by-score list: the new row goes after every
row of greater-or-equal score, which keeps equal-score rows in arrival
order. -/
def insertByScoreDesc (x : Row) : List Row → List Row
  | [] => [x]
  | y :: ys => if x.score ≤ y.score then y :: insertByScoreDesc x ys else x :: y :: ys

/-- Modelled from the spec: the stable descending sort that section 4.5
prescribes for the classifier (ties preserve input relative order), realised
as an insertion sort.  The source line (src/app.py line 261) delegates to
pandas df.sort_values(by="score", ascending=False) with the default
kind="quicksort": numpy argsorts with a stable insertion sort only up to its
16-element partition threshold, so this definition coincides with the
program on such small inputs, while on larger inputs the program's default
quicksort is documented unstable and can reorder tied rows — the code bug
recorded against the stability claim.  This is therefore the spec's
algorithm, not the program's, beyond that bound. -/
def sort_values_desc (rows : List Row) : List Row :=
  rows.foldl (fun acc x => insertByScoreDesc x acc) []

/-- Model of the classification at src/app.py lines 260-264: sort by score
descending (see the sort_values_desc caveat on tie order for large inputs),
then split at the fixed threshold score >= 60 (the reset_index re-indexing
is implicit in the list representation). -/
def classify (rows : List Row) : List Row × List Row :=
  let sorted := sort_values_desc rows
  (sorted.filter (fun r => decide (60 ≤ r.score)),
   sorted.filter (fun r => decide (r.score < 60)))

/- ------------------------------------------------------------------ -/
/- Concrete inputs used by the validator claims                        -/
/- ------------------------------------------------------------------ -/

/-- The spec's totality example: a JSON object embedded in noise. -/
def noiseText : String := "noise \x7b\"name\":\"A\",\"score\":77\x7d trailing"

/-- A response whose JSON object has no score_breakdown at all. -/
def missingBDText : String := "\x7b\"name\": \"B\"\x7d"

/-- A text that does contain a brace span, but one that is not valid JSON. -/
def badSpanText : String := "\x7bx\x7d"

/-- A response whose score_breakdown is a number, not an object. -/
def numBDText : String := "\x7b\"score_breakdown\": 5\x7d"

/-- The batch-error message a file contributes when its processing fails (the
except branch of main's loop), as an Option for filterMap formulations. -/
def errMsgOf (fname : String) : Except String Row → Option String
  | Except.ok _ => none
  | Except.error e => some (fname ++ " ❌ " ++ e)

/-- A result row with the given tag and score (remaining fields at their
defaults), used for concrete classifier scenarios. -/
def rowOf (nm : String) (sc : Int) : Row :=
  { filename := nm, name := Json.str nm, score := sc,
    education := Json.str "N/A", experience := Json.str "N/A",
    skills_matched := "", remark := Json.str "N/A", score_breakdown := "" }

/-- Concrete classifier input, score 90 (the spec's example, input order). -/
def rowA : Row := rowOf "a.pdf" 90

/-- Concrete classifier input, first score-60 row in input order. -/
def rowB : Row := rowOf "b.pdf" 60

/-- Concrete classifier input, score 59. -/
def rowC : Row := rowOf "c.pdf" 59

/-- Concrete classifier input, second score-60 row in input order. -/
def rowD : Row := rowOf "d.pdf" 60

/-- Concrete batch file 1. -/
def file1 : UploadedFile := { name := "resume1.pdf", content := "c1" }

/-- Concrete batch file 2 (the one whose extraction fails in the spec's
three-resume scenario). -/
def file2 : UploadedFile := { name := "resume2.pdf", content := "c2" }

/-- Concrete batch file 3. -/
def file3 : UploadedFile := { name := "resume3.docx", content := "c3" }

/-- The spec's three-resume batch. -/
def demoFiles : List UploadedFile := [file1, file2, file3]

/-- A well-formed model response (score 77, breakdown left to default). -/
def goodResponse : String := "\x7b\"name\": \"A\", \"score\": 77\x7d"

/-- An extractor that fails exactly on resume #2 with the unsupported-format
error, mirroring extract_text's failure mode. -/
def demoExtract : UploadedFile → Except String String :=
  fun f => if f.name = "resume2.pdf" then Except.error "Unsupported file format"
           else Except.ok ("resume text for " ++ f.name)

/-- An extractor that succeeds on every file. -/
def demoExtractOk : UploadedFile → Except String String :=
  fun f => Except.ok ("resume text for " ++ f.name)

/-- A client that always returns the well-formed response. -/
def demoClient : String → Except String String :=
  fun _ => Except.ok goodResponse

/-- The default weights of the UI (40/20/10/30, summing to 100). -/
def wStd : Weights := { experience := 40, skills := 20, education := 10, industry := 30 }

/-- The three-resume scenario of the spec: resume #2 fails at extraction. -/
def demoBatch : BatchState :=
  runBatch demoExtract demoClient "JD text" wStd "Professional" demoFiles

/-- The all-success batch over the same three resumes. -/
def demoBatchOk : BatchState :=
  runBatch demoExtractOk demoClient "JD text" wStd "Professional" demoFiles

/-- A syntactically valid model response whose score is a non-numeric
string. -/
def badScoreResponse : String := "\x7b\"score\": \"abc\"\x7d"

/-- What parse_json_response returns on badScoreResponse: the object with
score "abc" and a defaulted all-zero breakdown appended. -/
def badParsed : Json :=
  Json.obj [("score", Json.str "abc"),
    ("score_breakdown", Json.obj [("experience", Json.num 0), ("skills", Json.num 0),
      ("education", Json.num 0), ("industry", Json.num 0)])]

/- ------------------------------------------------------------------ -/
/- Association-list lemmas for the JSON object model                   -/
/- ------------------------------------------------------------------ -/

lemma lookup_append (a b : List (String × Json)) (k : String) :
    lookupKey (a ++ b) k =
      match lookupKey a k with
      | some v => some v
      | none => lookupKey b k := by
  induction a with
  | nil => simp [lookupKey]
  | cons p rest ih =>
    by_cases hk : p.1 = k
    · simp [lookupKey, hk]
    · simp [lookupKey, hk, ih]

lemma lookup_insertKey_same (kvs : List (String × Json)) (k : String) (v : Json) :
    lookupKey (insertKey kvs k v) k = some v := by
  induction kvs with
  | nil => simp [insertKey, lookupKey]
  | cons p rest ih =>
    by_cases hk : p.1 = k
    · cases p
      simp_all [insertKey, lookupKey]
    · cases p
      simp_all [insertKey, lookupKey]

lemma lookup_setDefaultZero_same (kvs : List (String × Json)) (k : String) :
    lookupKey (setDefaultZero kvs k) k = some ((lookupKey kvs k).getD (Json.num 0)) := by
  unfold setDefaultZero
  cases h : lookupKey kvs k with
  | some v => simp [h]
  | none =>
    simp only [h, Option.isSome_none, Bool.false_eq_true, if_false, Option.getD_none]
    rw [lookup_append]
    simp [h, lookupKey]

lemma lookup_setDefaultZero_other (kvs : List (String × Json)) (k k2 : String) (h : k ≠ k2) :
    lookupKey (setDefaultZero kvs k) k2 = lookupKey kvs k2 := by
  unfold setDefaultZero
  by_cases hs : (lookupKey kvs k).isSome = true
  · rw [if_pos hs]
  · rw [if_neg hs, lookup_append]
    cases h2 : lookupKey kvs k2 with
    | some v => rfl
    | none => simp [lookupKey, h]

lemma lookup_completeBreakdown (sb : List (String × Json)) (f : String)
    (hf : f ∈ breakdownFields) :
    lookupKey (completeBreakdown sb) f = some ((lookupKey sb f).getD (Json.num 0)) := by
  have hcb : completeBreakdown sb =
      setDefaultZero (setDefaultZero (setDefaultZero (setDefaultZero sb "experience")
        "skills") "education") "industry" := by
    simp [completeBreakdown, breakdownFields]
  rw [hcb]
  fin_cases hf
  · rw [lookup_setDefaultZero_other _ "industry" "experience" (by decide)]
    rw [lookup_setDefaultZero_other _ "education" "experience" (by decide)]
    rw [lookup_setDefaultZero_other _ "skills" "experience" (by decide)]
    rw [lookup_setDefaultZero_same]
  · rw [lookup_setDefaultZero_other _ "industry" "skills" (by decide)]
    rw [lookup_setDefaultZero_other _ "education" "skills" (by decide)]
    rw [lookup_setDefaultZero_same]
    rw [lookup_setDefaultZero_other _ "experience" "skills" (by decide)]
  · rw [lookup_setDefaultZero_other _ "industry" "education" (by decide)]
    rw [lookup_setDefaultZero_same]
    rw [lookup_setDefaultZero_other _ "skills" "education" (by decide)]
    rw [lookup_setDefaultZero_other _ "experience" "education" (by decide)]
  · rw [lookup_setDefaultZero_same]
    rw [lookup_setDefaultZero_other _ "education" "industry" (by decide)]
    rw [lookup_setDefaultZero_other _ "skills" "industry" (by decide)]
    rw [lookup_setDefaultZero_other _ "experience" "industry" (by decide)]

/- ------------------------------------------------------------------ -/
/- String lemmas                                                       -/
/- ------------------------------------------------------------------ -/

lemma string_data_append (a b : String) : (a ++ b).data = a.data ++ b.data := rfl

lemma string_eq_empty_of_data (p : String) (h : p.data = []) : p = "" := by
  cases p
  subst h
  rfl

lemma pyTake_append_drop (text : String) (n : Nat) :
    pyTake text n ++ String.mk (text.data.drop n) = text := by
  cases text with
  | mk d =>
    show String.mk (d.take n ++ d.drop n) = String.mk d
    rw [List.take_append_drop]

lemma pyTake_ne_empty (text : String) (n : Nat) (hn : 0 < n) (h : text ≠ "") :
    pyTake text n ≠ "" := by
  intro hc
  apply h
  have hd : (pyTake text n).data = [] := by rw [hc]
  have : text.data.take n = [] := hd
  rcases List.take_eq_nil_iff.mp this with h1 | h1
  · omega
  · exact string_eq_empty_of_data text h1

/-- Claim C9: when the extracted JSON object maps score_breakdown to a
non-object value, sb.setdefault raises AttributeError inside the try block,
so the validator raises the single UnparsableResponse error for the whole
record; the zero-defaulting applies only to an absent or object-valued
score_breakdown. -/
theorem claim_C9_nonobject_breakdown_raises (text json_str : String)
    (kvs : List (String × Json)) (v : Json)
    (h1 : braceSpan text = some json_str)
    (h2 : jsonParse json_str = some (Json.obj kvs))
    (h3 : lookupKey kvs "score_breakdown" = some v)
    (h4 : ∀ l, v ≠ Json.obj l) :
    parse_json_response text = Except.error (unparsableMsg text) := by
  cases v with
  | obj l => exact absurd rfl (h4 l)
  | null => simp only [parse_json_response, h1, h2, h3]
  | bool b => simp only [parse_json_response, h1, h2, h3]
  | num n => simp only [parse_json_response, h1, h2, h3]
  | str s => simp only [parse_json_response, h1, h2, h3]
  | arr xs => simp only [parse_json_response, h1, h2, h3]

/-- Witness for C9 at the concrete response whose score_breakdown is the
number 5. -/
theorem claim_C9_witness :
    parse_json_response numBDText = Except.error (unparsableMsg numBDText) :=
  claim_C9_nonobject_breakdown_raises numBDText numBDText
    [("score_breakdown", Json.num 5)] (Json.num 5) rfl rfl rfl
    (fun _ h => Json.noConfusion h)

/-- Claim C6 (as stated, refuted on the empty input): the empty raw text has
no brace span and parse_json_response does raise, but the diagnostic it can
carry is the empty prefix, and the empty input has no non-empty prefix at
all, so the error cannot carry a non-empty prefix of the input. -/
theorem claim_C6_counterexample :
    braceSpan "" = none ∧
    parse_json_response "" = Except.error (unparsableMsg "") ∧
    pyTake "" 500 = "" ∧
    ¬ ∃ p : String, p ≠ "" ∧ ∃ rest, p ++ rest = "" := by
  refine ⟨rfl, rfl, rfl, ?_⟩
  rintro ⟨p, hne, rest, hcat⟩
  apply hne
  have hd : p.data ++ rest.data = [] := by
    rw [← string_data_append, hcat]
  exact string_eq_empty_of_data p (List.append_eq_nil.mp hd).1

/-- Claim C6 (amended): for every raw text with no brace span the validator
raises UnparsableResponse whose message embeds the first up-to-500-character
prefix of the input, and that embedded prefix is non-empty whenever the
input itself is non-empty. -/
theorem claim_C6_amended_no_span_raises (text : String) (h : braceSpan text = none) :
    parse_json_response text =
      Except.error ("❌ Could not parse JSON from Gemini:\n" ++ pyTake text 500 ++ "...") ∧
    (∃ rest, pyTake text 500 ++ rest = text) ∧
    (text ≠ "" → pyTake text 500 ≠ "") := by
  refine ⟨?_, ⟨String.mk (text.data.drop 500), pyTake_append_drop text 500⟩, ?_⟩
  · unfold parse_json_response
    rw [h]
    rfl
  · exact pyTake_ne_empty text 500 (by omega)

/-- Witness for the amended C6 at a concrete brace-free input. -/
theorem claim_C6_witness :
    parse_json_response "no json here" =
      Except.error ("❌ Could not parse JSON from Gemini:\n" ++ pyTake "no json here" 500 ++ "...") ∧
    (∃ rest, pyTake "no json here" 500 ++ rest = "no json here") ∧
    ("no json here" ≠ "" → pyTake "no json here" 500 ≠ "") :=
  claim_C6_amended_no_span_raises "no json here" rfl

/-- Claim C3 (as stated, refuted): the text consisting of an opening brace,
the letter x and a closing brace contains a brace span (the regex finds it),
yet the validator raises because the span is not valid JSON — so having a
brace span alone does not make parse_json_response succeed. -/
theorem claim_C3_counterexample :
    braceSpan badSpanText = some badSpanText ∧
    parse_json_response badSpanText = Except.error (unparsableMsg badSpanText) :=
  ⟨rfl, rfl⟩

/-- Claim C3 (amended): whenever the first-brace-to-last-brace span parses as
a JSON object whose score_breakdown is absent or itself an object, the
validator succeeds and defaults every absent breakdown field to 0 while
keeping present ones; in particular the spec's two concrete examples hold:
the noise-wrapped object yields score 77 with an all-zero breakdown, and a
missing score_breakdown yields the four fields all 0, never an error. -/
theorem claim_C3_amended_defaulting :
    (∀ (text json_str : String) (kvs : List (String × Json)),
      braceSpan text = some json_str →
      jsonParse json_str = some (Json.obj kvs) →
      ((lookupKey kvs "score_breakdown" = none →
         parse_json_response text =
           Except.ok (Json.obj (insertKey kvs "score_breakdown"
             (Json.obj (completeBreakdown [])))) ∧
         (∀ fld, fld ∈ breakdownFields →
           breakdownField (parse_json_response text) fld = some (Json.num 0))) ∧
       (∀ sb, lookupKey kvs "score_breakdown" = some (Json.obj sb) →
         parse_json_response text =
           Except.ok (Json.obj (insertKey kvs "score_breakdown"
             (Json.obj (completeBreakdown sb)))) ∧
         (∀ fld, fld ∈ breakdownFields →
           breakdownField (parse_json_response text) fld =
             some ((lookupKey sb fld).getD (Json.num 0)))))) ∧
    topField (parse_json_response noiseText) "score" = some (Json.num 77) ∧
    breakdownField (parse_json_response noiseText) "experience" = some (Json.num 0) ∧
    breakdownField (parse_json_response noiseText) "skills" = some (Json.num 0) ∧
    breakdownField (parse_json_response noiseText) "education" = some (Json.num 0) ∧
    breakdownField (parse_json_response noiseText) "industry" = some (Json.num 0) ∧
    parse_json_response missingBDText =
      Except.ok (Json.obj [("name", Json.str "B"),
        ("score_breakdown", Json.obj [("experience", Json.num 0), ("skills", Json.num 0),
          ("education", Json.num 0), ("industry", Json.num 0)])]) := by
  refine ⟨?_, rfl, rfl, rfl, rfl, rfl, rfl⟩
  intro text json_str kvs h1 h2
  constructor
  · intro habs
    have hok : parse_json_response text =
        Except.ok (Json.obj (insertKey kvs "score_breakdown"
          (Json.obj (completeBreakdown [])))) := by
      simp only [parse_json_response, h1, h2, habs]
    refine ⟨hok, ?_⟩
    intro fld hfld
    rw [hok]
    simp only [breakdownField, topField, lookup_insertKey_same]
    rw [lookup_completeBreakdown [] fld hfld]
    rfl
  · intro sb hsb
    have hok : parse_json_response text =
        Except.ok (Json.obj (insertKey kvs "score_breakdown"
          (Json.obj (completeBreakdown sb)))) := by
      simp only [parse_json_response, h1, h2, hsb]
    refine ⟨hok, ?_⟩
    intro fld hfld
    rw [hok]
    simp only [breakdownField, topField, lookup_insertKey_same]
    rw [lookup_completeBreakdown sb fld hfld]

/-- Witness for the amended C3 on the concrete response whose breakdown has
some fields present and some absent. -/
theorem claim_C3_witness :
    parse_json_response "\x7b\"score_breakdown\": \x7b\"skills\": 9\x7d\x7d" =
      Except.ok (Json.obj (insertKey [("score_breakdown", Json.obj [("skills", Json.num 9)])]
        "score_breakdown" (Json.obj (completeBreakdown [("skills", Json.num 9)])))) ∧
    breakdownField (parse_json_response "\x7b\"score_breakdown\": \x7b\"skills\": 9\x7d\x7d")
      "experience" = some ((lookupKey [("skills", Json.num 9)] "experience").getD (Json.num 0)) := by
  have h := (claim_C3_amended_defaulting.1
    "\x7b\"score_breakdown\": \x7b\"skills\": 9\x7d\x7d"
    "\x7b\"score_breakdown\": \x7b\"skills\": 9\x7d\x7d"
    [("score_breakdown", Json.obj [("skills", Json.num 9)])] rfl rfl).2
    [("skills", Json.num 9)] rfl
  exact ⟨h.1, h.2 "experience" (by decide)⟩

/- ------------------------------------------------------------------ -/
/- Stable descending sort lemmas (properties of the spec-prescribed    -/
/- sort model sort_values_desc: permutation, sortedness, stability)    -/
/- ------------------------------------------------------------------ -/

lemma insert_perm (x : Row) (l : List Row) :
    List.Perm (insertByScoreDesc x l) (x :: l) := by
  induction l with
  | nil => simp [insertByScoreDesc]
  | cons y ys ih =>
    rw [insertByScoreDesc]
    by_cases hc : x.score ≤ y.score
    · rw [if_pos hc]
      exact List.Perm.trans (List.Perm.cons y ih) (List.Perm.swap x y ys)
    · rw [if_neg hc]

lemma pairwise_insert (x : Row) (l : List Row)
    (h : List.Pairwise (fun a b => b.score ≤ a.score) l) :
    List.Pairwise (fun a b => b.score ≤ a.score) (insertByScoreDesc x l) := by
  induction l with
  | nil => simp [insertByScoreDesc]
  | cons y ys ih =>
    rcases List.pairwise_cons.mp h with ⟨hy, hys⟩
    rw [insertByScoreDesc]
    by_cases hc : x.score ≤ y.score
    · rw [if_pos hc]
      refine List.pairwise_cons.mpr ⟨?_, ih hys⟩
      intro z hz
      have hz2 : z = x ∨ z ∈ ys := List.mem_cons.mp ((insert_perm x ys).mem_iff.mp hz)
      rcases hz2 with hz1 | hz1
      · rw [hz1]; exact hc
      · exact hy z hz1
    · rw [if_neg hc]
      refine List.pairwise_cons.mpr ⟨?_, h⟩
      intro z hz
      rcases List.mem_cons.mp hz with hz1 | hz1
      · rw [hz1]; omega
      · have := hy z hz1; omega

lemma filter_insert_eq (x : Row) (s : Int) (l : List Row)
    (h : List.Pairwise (fun a b => b.score ≤ a.score) l) :
    (insertByScoreDesc x l).filter (fun r => decide (r.score = s)) =
      l.filter (fun r => decide (r.score = s)) ++ (if x.score = s then [x] else []) := by
  induction l with
  | nil =>
    by_cases hx : x.score = s <;> simp [insertByScoreDesc, hx]
  | cons y ys ih =>
    rcases List.pairwise_cons.mp h with ⟨hy, hys⟩
    rw [insertByScoreDesc]
    by_cases hc : x.score ≤ y.score
    · rw [if_pos hc]
      rw [List.filter_cons, List.filter_cons]
      by_cases hyy : y.score = s
      · simp [hyy, ih hys]
      · simp [hyy, ih hys]
    · rw [if_neg hc]
      have hlt : y.score < x.score := by omega
      by_cases hx : x.score = s
      · have hnil : (y :: ys).filter (fun r => decide (r.score = s)) = [] := by
          rw [List.filter_eq_nil_iff]
          intro a ha
          rcases List.mem_cons.mp ha with ha1 | ha1
          · subst ha1; simp only [decide_eq_true_eq]; omega
          · have := hy a ha1; simp only [decide_eq_true_eq]; omega
        rw [List.filter_cons, hnil]
        simp [hx]
      · rw [List.filter_cons]
        simp [hx]

lemma foldl_insert_perm (rows : List Row) :
    ∀ acc : List Row,
      List.Perm (rows.foldl (fun a x => insertByScoreDesc x a) acc) (rows ++ acc) := by
  induction rows with
  | nil => intro acc; simp
  | cons x xs ih =>
    intro acc
    rw [List.foldl_cons]
    refine List.Perm.trans (ih (insertByScoreDesc x acc)) ?_
    refine List.Perm.trans (List.Perm.append_left xs (insert_perm x acc)) ?_
    exact List.perm_middle

lemma foldl_insert_pairwise (rows : List Row) :
    ∀ acc : List Row, List.Pairwise (fun a b => b.score ≤ a.score) acc →
      List.Pairwise (fun a b => b.score ≤ a.score)
        (rows.foldl (fun a x => insertByScoreDesc x a) acc) := by
  induction rows with
  | nil => intro acc h; simpa using h
  | cons x xs ih =>
    intro acc h
    rw [List.foldl_cons]
    exact ih (insertByScoreDesc x acc) (pairwise_insert x acc h)

lemma foldl_insert_filter (rows : List Row) (s : Int) :
    ∀ acc : List Row, List.Pairwise (fun a b => b.score ≤ a.score) acc →
      (rows.foldl (fun a x => insertByScoreDesc x a) acc).filter
          (fun r => decide (r.score = s)) =
        acc.filter (fun r => decide (r.score = s)) ++
          rows.filter (fun r => decide (r.score = s)) := by
  induction rows with
  | nil => intro acc h; simp
  | cons x xs ih =>
    intro acc h
    rw [List.foldl_cons, ih (insertByScoreDesc x acc) (pairwise_insert x acc h),
      filter_insert_eq x s acc h]
    by_cases hx : x.score = s
    · simp [List.filter_cons, hx]
    · simp [List.filter_cons, hx]

lemma sort_values_desc_perm (rows : List Row) :
    List.Perm (sort_values_desc rows) rows := by
  have h := foldl_insert_perm rows []
  simpa [sort_values_desc] using h

lemma sort_values_desc_pairwise (rows : List Row) :
    List.Pairwise (fun a b => b.score ≤ a.score) (sort_values_desc rows) :=
  foldl_insert_pairwise rows [] (by simp)

lemma sort_values_desc_filter (rows : List Row) (s : Int) :
    (sort_values_desc rows).filter (fun r => decide (r.score = s)) =
      rows.filter (fun r => decide (r.score = s)) := by
  have h := foldl_insert_filter rows s [] (by simp)
  simpa [sort_values_desc] using h

lemma filter_split_of_sorted (l : List Row)
    (h : List.Pairwise (fun a b => b.score ≤ a.score) l) :
    l.filter (fun r => decide (60 ≤ r.score)) ++ l.filter (fun r => decide (r.score < 60)) = l := by
  induction l with
  | nil => rfl
  | cons x xs ih =>
    rcases List.pairwise_cons.mp h with ⟨hx, hxs⟩
    by_cases hge : 60 ≤ x.score
    · have h1 : decide (60 ≤ x.score) = true := by simp [hge]
      have h2 : decide (x.score < 60) = false := by simp; omega
      simp [List.filter_cons, h1, h2, ih hxs]
    · have h1 : decide (60 ≤ x.score) = false := by simp; omega
      have h2 : decide (x.score < 60) = true := by simp; omega
      have hnil : xs.filter (fun r => decide (60 ≤ r.score)) = [] := by
        rw [List.filter_eq_nil_iff]
        intro a ha
        have := hx a ha
        simp only [decide_eq_true_eq]
        omega
      have hall : xs.filter (fun r => decide (r.score < 60)) = xs := by
        rw [List.filter_eq_self]
        intro a ha
        have := hx a ha
        simp only [decide_eq_true_eq]
        omega
      simp [List.filter_cons, h1, h2, hnil, hall]

/-- Claim C2 (code bug, evaluated where the embedding is faithful to the
program): on the spec's concrete four-row input with scores [90, 60, 59, 60]
— small enough that pandas' default sort runs numpy's stable insertion sort
— the classifier returns accepted [90, 60, 60] with the two tied rows in
input order and rejected [59].  The universal ties-keep-input-order part of
the claim is the spec's contract but not a property of the program: the
source sorts with pandas' default kind="quicksort", which is unstable once
partitions exceed numpy's 16-element insertion-sort threshold (a batch of
20 equal scores gets its tied rows reordered); the spec-prescribed stable
sort (sort_values_desc, whose permutation, sortedness and stability are
proved in the lemmas above) would be obtained by sorting with
kind="stable". -/
theorem claim_C2_concrete_example :
    classify [rowA, rowB, rowC, rowD] = ([rowA, rowB, rowD], [rowC]) := rfl

/-- Claim C10: classify is a pure, deterministic function of its input: two
applications to the same sequence produce identical accepted and rejected
partitions. -/
theorem claim_C10_classify_deterministic (rows : List Row) (a1 r1 a2 r2 : List Row)
    (h1 : classify rows = (a1, r1)) (h2 : classify rows = (a2, r2)) :
    a1 = a2 ∧ r1 = r2 := by
  rw [h1] at h2
  exact ⟨congrArg Prod.fst h2, congrArg Prod.snd h2⟩

/-- Witness for C10 on the concrete four-row input. -/
theorem claim_C10_witness : [rowA, rowB, rowD] = [rowA, rowB, rowD] ∧ [rowC] = [rowC] :=
  claim_C10_classify_deterministic [rowA, rowB, rowC, rowD]
    [rowA, rowB, rowD] [rowC] [rowA, rowB, rowD] [rowC] rfl rfl

/- ------------------------------------------------------------------ -/
/- Batch orchestration lemmas                                          -/
/- ------------------------------------------------------------------ -/

lemma stepFile_proj (extract : UploadedFile → Except String String)
    (client : String → Except String String) (jd : String) (w : Weights) (tone : String)
    (st : BatchState) (f : UploadedFile) :
    (stepFile extract client jd w tone st f).results
        = st.results ++ ((processOne extract client jd w tone f).toOption).toList ∧
    (stepFile extract client jd w tone st f).error_messages
        = st.error_messages ++ (errMsgOf f.name (processOne extract client jd w tone f)).toList ∧
    (stepFile extract client jd w tone st f).success_count
        = st.success_count + ((processOne extract client jd w tone f).toOption).toList.length ∧
    (stepFile extract client jd w tone st f).failure_count
        = st.failure_count + (errMsgOf f.name (processOne extract client jd w tone f)).toList.length := by
  unfold stepFile processOne
  cases h1 : extract f with
  | error e => simp [h1, recordFailure, errMsgOf, Except.toOption]
  | ok resume_text =>
    cases h2 : client (prepare_prompt resume_text jd w tone) with
    | error e => simp [h1, h2, recordFailure, errMsgOf, Except.toOption]
    | ok response_text =>
      cases h3 : parse_json_response response_text with
      | error e => simp [h1, h2, h3, recordFailure, errMsgOf, Except.toOption]
      | ok response_json =>
        cases h4 : buildRow f.name response_json with
        | error e => simp [h1, h2, h3, h4, recordFailure, errMsgOf, Except.toOption]
        | ok row => simp [h1, h2, h3, h4, errMsgOf, Except.toOption]

lemma foldl_batch_proj (extract : UploadedFile → Except String String)
    (client : String → Except String String) (jd : String) (w : Weights) (tone : String)
    (files : List UploadedFile) :
    ∀ st : BatchState,
      ((files.foldl (stepFile extract client jd w tone) st).results
          = st.results ++ files.filterMap (fun f => (processOne extract client jd w tone f).toOption)) ∧
      ((files.foldl (stepFile extract client jd w tone) st).error_messages
          = st.error_messages ++ files.filterMap (fun f => errMsgOf f.name (processOne extract client jd w tone f))) ∧
      ((files.foldl (stepFile extract client jd w tone) st).success_count
          = st.success_count + (files.filterMap (fun f => (processOne extract client jd w tone f).toOption)).length) ∧
      ((files.foldl (stepFile extract client jd w tone) st).failure_count
          = st.failure_count + (files.filterMap (fun f => errMsgOf f.name (processOne extract client jd w tone f))).length) := by
  induction files with
  | nil => intro st; simp
  | cons f fs ih =>
    intro st
    rw [List.foldl_cons]
    rcases ih (stepFile extract client jd w tone st f) with ⟨hr, he, hs, hf⟩
    rcases stepFile_proj extract client jd w tone st f with ⟨pr, pe, ps, pf⟩
    refine ⟨?_, ?_, ?_, ?_⟩
    · rw [hr, pr]
      cases h : processOne extract client jd w tone f <;>
        simp [List.filterMap_cons, h, Except.toOption]
    · rw [he, pe]
      cases h : processOne extract client jd w tone f <;>
        simp [List.filterMap_cons, h, errMsgOf]
    · rw [hs, ps]
      cases h : processOne extract client jd w tone f <;>
        simp [List.filterMap_cons, h, Except.toOption] <;> omega
    · rw [hf, pf]
      cases h : processOne extract client jd w tone f <;>
        simp [List.filterMap_cons, h, errMsgOf] <;> omega

lemma runBatch_results (extract : UploadedFile → Except String String)
    (client : String → Except String String) (jd : String) (w : Weights) (tone : String)
    (files : List UploadedFile) :
    (runBatch extract client jd w tone files).results
      = files.filterMap (fun f => (processOne extract client jd w tone f).toOption) := by
  have h := (foldl_batch_proj extract client jd w tone files initState).1
  simpa [runBatch, initState] using h

lemma runBatch_errors (extract : UploadedFile → Except String String)
    (client : String → Except String String) (jd : String) (w : Weights) (tone : String)
    (files : List UploadedFile) :
    (runBatch extract client jd w tone files).error_messages
      = files.filterMap (fun f => errMsgOf f.name (processOne extract client jd w tone f)) := by
  have h := (foldl_batch_proj extract client jd w tone files initState).2.1
  simpa [runBatch, initState] using h

lemma runBatch_success (extract : UploadedFile → Except String String)
    (client : String → Except String String) (jd : String) (w : Weights) (tone : String)
    (files : List UploadedFile) :
    (runBatch extract client jd w tone files).success_count
      = (files.filterMap (fun f => (processOne extract client jd w tone f).toOption)).length := by
  have h := (foldl_batch_proj extract client jd w tone files initState).2.2.1
  simpa [runBatch, initState] using h

lemma runBatch_failure (extract : UploadedFile → Except String String)
    (client : String → Except String String) (jd : String) (w : Weights) (tone : String)
    (files : List UploadedFile) :
    (runBatch extract client jd w tone files).failure_count
      = (files.filterMap (fun f => errMsgOf f.name (processOne extract client jd w tone f))).length := by
  have h := (foldl_batch_proj extract client jd w tone files initState).2.2.2
  simpa [runBatch, initState] using h

/-- Claim C1: each file's contribution to the batch depends only on that
file's own processing outcome — successes contribute exactly their row,
failures contribute exactly one tagged error message, counts match, in
caller-supplied order (strict fault isolation) — and on the spec's concrete
three-resume batch where resume #2 fails at extraction, the run yields
exactly 2 results, 1 error tagged resume2.pdf, and a summary with
successCount 2 and failureCount 1. -/
theorem claim_C1_fault_isolation :
    (∀ (extract : UploadedFile → Except String String)
       (client : String → Except String String)
       (jd : String) (w : Weights) (tone : String) (files : List UploadedFile),
      (runBatch extract client jd w tone files).results
          = files.filterMap (fun f => (processOne extract client jd w tone f).toOption) ∧
      (runBatch extract client jd w tone files).error_messages
          = files.filterMap (fun f => errMsgOf f.name (processOne extract client jd w tone f)) ∧
      (runBatch extract client jd w tone files).success_count
          = (runBatch extract client jd w tone files).results.length ∧
      (runBatch extract client jd w tone files).failure_count
          = (runBatch extract client jd w tone files).error_messages.length) ∧
    demoBatch.results.length = 2 ∧
    demoBatch.results.map Row.filename = ["resume1.pdf", "resume3.docx"] ∧
    demoBatch.error_messages = ["resume2.pdf ❌ Unsupported file format"] ∧
    demoBatch.success_count = 2 ∧
    demoBatch.failure_count = 1 ∧
    (mkLogEntry demoFiles "JD text" 1 demoBatch).success_count = 2 ∧
    (mkLogEntry demoFiles "JD text" 1 demoBatch).failure_count = 1 := by
  refine ⟨?_, by decide, rfl, rfl, by decide, by decide, by decide, by decide⟩
  intro extract client jd w tone files
  refine ⟨runBatch_results extract client jd w tone files,
    runBatch_errors extract client jd w tone files, ?_, ?_⟩
  · rw [runBatch_success extract client jd w tone files,
      runBatch_results extract client jd w tone files]
  · rw [runBatch_failure extract client jd w tone files,
      runBatch_errors extract client jd w tone files]

/-- Claim C7: a weight quadruple not summing to 100 is rejected by the
caller-level guard before anything happens: the outcome carries the guard
error, no result or batch error, zero extraction attempts, zero prompts
built, zero client calls, and the log sink untouched. -/
theorem claim_C7_weights_guard (ew sw edw iw : Int) (jd tone : String)
    (files : List UploadedFile) (extract : UploadedFile → Except String String)
    (client : String → Except String String) (duration : Nat) (log0 : List LogEntry)
    (h : ew + sw + edw + iw ≠ 100) :
    main ew sw edw iw jd tone files extract client duration log0 =
      { guard_error := some ("Total is " ++ toString (ew + sw + edw + iw) ++ "%. Adjust to equal 100.")
        results := [], error_messages := []
        extract_calls := 0, prompts_built := 0, client_calls := 0, log := log0 } := by
  simp only [main]
  rw [if_pos h]

/-- Witness for C7 at the concrete sum 99. -/
theorem claim_C7_witness :
    main 40 20 10 29 "JD text" "Professional" demoFiles demoExtract demoClient 0 [] =
      { guard_error := some ("Total is " ++ toString ((40 : Int) + 20 + 10 + 29) ++ "%. Adjust to equal 100.")
        results := [], error_messages := []
        extract_calls := 0, prompts_built := 0, client_calls := 0, log := [] } :=
  claim_C7_weights_guard 40 20 10 29 "JD text" "Professional" demoFiles demoExtract
    demoClient 0 [] (by decide)

/-- Claim C5 (amended): every completed batch run appends exactly one
summary row to the log sink; when no failure occurred the row reports
failureCount 0 and its errorMessages field is the literal string "None"
(the source writes "None", not the empty string, when the error list is
empty). -/
theorem claim_C5_amended_single_log_row (ew sw edw iw : Int) (jd tone : String)
    (files : List UploadedFile) (extract : UploadedFile → Except String String)
    (client : String → Except String String) (duration : Nat) (log0 : List LogEntry)
    (h1 : ew + sw + edw + iw = 100) (h2 : jd ≠ "") (h3 : files ≠ []) :
    (main ew sw edw iw jd tone files extract client duration log0).log
        = log0 ++ [mkLogEntry files jd duration
            (runBatch extract client jd
              { experience := ew, skills := sw, education := edw, industry := iw }
              tone files)] ∧
    (main ew sw edw iw jd tone files extract client duration log0).log.length
        = log0.length + 1 ∧
    ((runBatch extract client jd
        { experience := ew, skills := sw, education := edw, industry := iw }
        tone files).failure_count = 0 →
      (mkLogEntry files jd duration
        (runBatch extract client jd
          { experience := ew, skills := sw, education := edw, industry := iw }
          tone files)).failure_count = 0 ∧
      (mkLogEntry files jd duration
        (runBatch extract client jd
          { experience := ew, skills := sw, education := edw, industry := iw }
          tone files)).error_message = "None") := by
  have hmain : (main ew sw edw iw jd tone files extract client duration log0).log
      = log0 ++ [mkLogEntry files jd duration
          (runBatch extract client jd
            { experience := ew, skills := sw, education := edw, industry := iw }
            tone files)] := by
    simp only [main]
    rw [if_neg (by simp [h1]), if_neg (by simp [h2, h3])]
    rfl
  refine ⟨hmain, by rw [hmain]; simp, ?_⟩
  intro hzero
  have hlen : (runBatch extract client jd
      { experience := ew, skills := sw, education := edw, industry := iw }
      tone files).error_messages.length = 0 := by
    rw [runBatch_errors]
    rw [runBatch_failure extract client jd
      { experience := ew, skills := sw, education := edw, industry := iw } tone files] at hzero
    exact hzero
  have herr : (runBatch extract client jd
      { experience := ew, skills := sw, education := edw, industry := iw }
      tone files).error_messages = [] := List.length_eq_zero.mp hlen
  exact ⟨by simp [mkLogEntry, hzero], by simp [mkLogEntry, herr]⟩

/-- Witness for the amended C5 on the all-success three-resume batch. -/
theorem claim_C5_witness :
    (mkLogEntry demoFiles "JD text" 1
      (runBatch demoExtractOk demoClient "JD text"
        { experience := 40, skills := 20, education := 10, industry := 30 }
        "Professional" demoFiles)).failure_count = 0 ∧
    (mkLogEntry demoFiles "JD text" 1
      (runBatch demoExtractOk demoClient "JD text"
        { experience := 40, skills := 20, education := 10, industry := 30 }
        "Professional" demoFiles)).error_message = "None" :=
  (claim_C5_amended_single_log_row 40 20 10 30 "JD text" "Professional" demoFiles
    demoExtractOk demoClient 1 [] (by decide) (by decide) (by decide)).2.2 (by decide)

/-- Claim C5 (as stated, refuted): on a run with zero failures the single
appended summary row carries errorMessages "None", which is not the empty
string the claim promises. -/
theorem claim_C5_counterexample :
    demoBatchOk.failure_count = 0 ∧
    (main 40 20 10 30 "JD text" "Professional" demoFiles demoExtractOk demoClient 1 []).log
        = [mkLogEntry demoFiles "JD text" 1 demoBatchOk] ∧
    (mkLogEntry demoFiles "JD text" 1 demoBatchOk).failure_count = 0 ∧
    (mkLogEntry demoFiles "JD text" 1 demoBatchOk).error_message = "None" ∧
    ("None" : String) ≠ "" := by
  refine ⟨by decide, rfl, by decide, rfl, by decide⟩

lemma buildRow_ok (fname : String) (kvs sb : List (String × Json)) (sk : String) (n : Int)
    (hbd : getJ kvs "score_breakdown" (Json.obj []) = Json.obj sb)
    (hscore : pyInt (getJ kvs "score" (Json.num 0)) = Except.ok n)
    (hjoin : pyJoin ", " (getJ kvs "skills_matched" (Json.arr [])) = Except.ok sk) :
    buildRow fname (Json.obj kvs) = Except.ok
      { filename := fname
        name := getJ kvs "name" (Json.str "N/A")
        score := n
        education := getJ kvs "education" (Json.str "N/A")
        experience := getJ kvs "experience" (Json.str "N/A")
        skills_matched := sk
        remark := getJ kvs "remark" (Json.str "N/A")
        score_breakdown :=
          "Exp: " ++ pyStr (getJ sb "experience" (Json.num 0)) ++
          ", Skills: " ++ pyStr (getJ sb "skills" (Json.num 0)) ++
          ", Edu: " ++ pyStr (getJ sb "education" (Json.num 0)) ++
          ", Ind: " ++ pyStr (getJ sb "industry" (Json.num 0)) } := by
  simp only [buildRow, hbd, hscore, hjoin]

lemma buildRow_err (fname : String) (kvs sb : List (String × Json)) (e : String)
    (hbd : getJ kvs "score_breakdown" (Json.obj []) = Json.obj sb)
    (hscore : pyInt (getJ kvs "score" (Json.num 0)) = Except.error e) :
    buildRow fname (Json.obj kvs) = Except.error e := by
  simp only [buildRow, hbd, hscore]

/-- Claim C4 (as stated, refuted): the response with score "abc" parses
successfully (breakdown defaults fill in), yet int() on the non-numeric
score raises, so the resume produces a batch error rather than an
EvaluationResult with score 0. -/
theorem claim_C4_counterexample :
    parse_json_response badScoreResponse = Except.ok badParsed ∧
    topField (Except.ok badParsed) "score" = some (Json.str "abc") ∧
    buildRow "resume1.pdf" badParsed
        = Except.error ("invalid literal for int() with base 10: " ++ squote ++ "abc" ++ squote) ∧
    (runBatch demoExtractOk (fun _ => Except.ok badScoreResponse) "JD text" wStd
      "Professional" [file1]).results = [] ∧
    (runBatch demoExtractOk (fun _ => Except.ok badScoreResponse) "JD text" wStd
      "Professional" [file1]).failure_count = 1 := by
  refine ⟨rfl, rfl, rfl, rfl, by decide⟩

/-- Claim C4 (amended): the score of a successfully parsed response is
int()-coerced — an absent score yields an EvaluationResult with score 0 and
an integer score passes through — but a score value on which int() raises
(such as a non-numeric string, null, a list, or an object) turns that
resume's outcome into an error, which the orchestrator records as a
BatchError. -/
theorem claim_C4_amended_score_coercion (fname : String) (kvs sb : List (String × Json))
    (sk : String)
    (hbd : getJ kvs "score_breakdown" (Json.obj []) = Json.obj sb)
    (hjoin : pyJoin ", " (getJ kvs "skills_matched" (Json.arr [])) = Except.ok sk) :
    (lookupKey kvs "score" = none →
      ∃ r : Row, buildRow fname (Json.obj kvs) = Except.ok r ∧ r.score = 0) ∧
    (∀ n : Int, lookupKey kvs "score" = some (Json.num n) →
      ∃ r : Row, buildRow fname (Json.obj kvs) = Except.ok r ∧ r.score = n) ∧
    (∀ v e, lookupKey kvs "score" = some v → pyInt v = Except.error e →
      buildRow fname (Json.obj kvs) = Except.error e) := by
  refine ⟨?_, ?_, ?_⟩
  · intro habs
    have hscore : pyInt (getJ kvs "score" (Json.num 0)) = Except.ok 0 := by
      simp [getJ, habs, pyInt]
    exact ⟨_, buildRow_ok fname kvs sb sk 0 hbd hscore hjoin, rfl⟩
  · intro n hn
    have hscore : pyInt (getJ kvs "score" (Json.num 0)) = Except.ok n := by
      simp [getJ, hn, pyInt]
    exact ⟨_, buildRow_ok fname kvs sb sk n hbd hscore hjoin, rfl⟩
  · intro v e hv he
    have hscore : pyInt (getJ kvs "score" (Json.num 0)) = Except.error e := by
      rw [getJ, hv]
      exact he
    exact buildRow_err fname kvs sb e hbd hscore

/-- Witness for the amended C4: the empty parsed object has no score and
builds a row with score 0. -/
theorem claim_C4_witness :
    ∃ r : Row, buildRow "f.pdf" (Json.obj []) = Except.ok r ∧ r.score = 0 :=
  (claim_C4_amended_score_coercion "f.pdf" [] [] "" rfl rfl).1 rfl

/-- Claim C8: prepare_prompt is a pure total function that, for any weights
summing to 100, embeds each of the four weight values verbatim along with
the resume text and the JD text, and a tone outside the three enumerated
values falls back to the default professional instruction. -/
theorem claim_C8_prompt_builder (resume_text jd_text : String) (w : Weights) (tone : String)
    (_hsum : w.experience + w.skills + w.education + w.industry = 100) :
    (∃ p q, prepare_prompt resume_text jd_text w tone = p ++ toString w.experience ++ q) ∧
    (∃ p q, prepare_prompt resume_text jd_text w tone = p ++ toString w.skills ++ q) ∧
    (∃ p q, prepare_prompt resume_text jd_text w tone = p ++ toString w.education ++ q) ∧
    (∃ p q, prepare_prompt resume_text jd_text w tone = p ++ toString w.industry ++ q) ∧
    (∃ p q, prepare_prompt resume_text jd_text w tone = p ++ resume_text ++ q) ∧
    (∃ p q, prepare_prompt resume_text jd_text w tone = p ++ jd_text ++ q) ∧
    (tone ≠ "Professional" → tone ≠ "Critical" → tone ≠ "Blunt" →
      ∃ p q, prepare_prompt resume_text jd_text w tone
        = p ++ "Use a professional tone." ++ q) := by
  refine ⟨?_, ?_, ?_, ?_, ?_, ?_, ?_⟩
  · exact ⟨promptSegA,
      promptSegB ++ toString w.skills ++ promptSegC ++ toString w.education ++
        promptSegD ++ toString w.industry ++ promptSegE ++ toneInstruction tone ++
        promptSegF ++ resume_text ++ promptSegG ++ jd_text ++ promptSegH,
      by simp [prepare_prompt, String.append_assoc]⟩
  · exact ⟨promptSegA ++ toString w.experience ++ promptSegB,
      promptSegC ++ toString w.education ++ promptSegD ++ toString w.industry ++
        promptSegE ++ toneInstruction tone ++ promptSegF ++ resume_text ++
        promptSegG ++ jd_text ++ promptSegH,
      by simp [prepare_prompt, String.append_assoc]⟩
  · exact ⟨promptSegA ++ toString w.experience ++ promptSegB ++ toString w.skills ++
        promptSegC,
      promptSegD ++ toString w.industry ++ promptSegE ++ toneInstruction tone ++
        promptSegF ++ resume_text ++ promptSegG ++ jd_text ++ promptSegH,
      by simp [prepare_prompt, String.append_assoc]⟩
  · exact ⟨promptSegA ++ toString w.experience ++ promptSegB ++ toString w.skills ++
        promptSegC ++ toString w.education ++ promptSegD,
      promptSegE ++ toneInstruction tone ++ promptSegF ++ resume_text ++
        promptSegG ++ jd_text ++ promptSegH,
      by simp [prepare_prompt, String.append_assoc]⟩
  · exact ⟨promptSegA ++ toString w.experience ++ promptSegB ++ toString w.skills ++
        promptSegC ++ toString w.education ++ promptSegD ++ toString w.industry ++
        promptSegE ++ toneInstruction tone ++ promptSegF,
      promptSegG ++ jd_text ++ promptSegH,
      by simp [prepare_prompt, String.append_assoc]⟩
  · exact ⟨promptSegA ++ toString w.experience ++ promptSegB ++ toString w.skills ++
        promptSegC ++ toString w.education ++ promptSegD ++ toString w.industry ++
        promptSegE ++ toneInstruction tone ++ promptSegF ++ resume_text ++ promptSegG,
      promptSegH,
      by simp [prepare_prompt, String.append_assoc]⟩
  · intro h1 h2 h3
    have ht : toneInstruction tone = "Use a professional tone." := by
      simp [toneInstruction, h1, h2, h3]
    refine ⟨promptSegA ++ toString w.experience ++ promptSegB ++ toString w.skills ++
      promptSegC ++ toString w.education ++ promptSegD ++ toString w.industry ++
      promptSegE, promptSegF ++ resume_text ++ promptSegG ++ jd_text ++ promptSegH, ?_⟩
    rw [← ht]
    simp [prepare_prompt, String.append_assoc]

/-- Witness for C8 at the default weights with the unknown tone "Casual". -/
theorem claim_C8_witness :
    ∃ p q, prepare_prompt "resume body" "jd body" wStd "Casual"
      = p ++ "Use a professional tone." ++ q :=
  (claim_C8_prompt_builder "resume body" "jd body" wStd "Casual" (by decide)).2.2.2.2.2.2
    (by decide) (by decide) (by decide)

end HRSBot
